import Mathlib

/-!
Verification development for the `testnet` crate: a shallow embedding of the
node-side IPC client (`src/context.rs`), the supervisor / switch bootstrap
(`src/network.rs`), and the node / network configuration logic, together with
theorems about the behaviour of these functions.

Machine integers are modelled as `Nat` (IPv4 addresses are naturals below
`2 ^ 32`), byte payloads as `List Nat`, fallible Rust functions as
`Except String`.  Blocking I/O on the IPC pipes is modelled by passing the
broker's reply (`Option IpcMessage`, `none` meaning "no response") explicitly
to each node-side primitive; each primitive returns its result, the updated
`Context`, and the list of log lines it emitted on stderr.

The broker itself (`ipc_server.rs` / `ipc_state.rs`) and a few leaf modules
are not present in the source tree; where a claim depends on them the
corresponding definition is modelled from the specification and marked as
such in its doc comment.
-/

namespace Testnet

/-- IPv4 address built from four octets, as a natural number below `2 ^ 32`. -/
def ipv4 (a b c d : Nat) : Nat := ((a * 256 + b) * 256 + c) * 256 + d

/-- Embedding of `ipnet::IpNet`, restricted to IPv4 (the only case the crate
constructs): an address plus a prefix length. -/
structure IpNet where
  addr : Nat
  prefix_len : Nat
  deriving DecidableEq, Repr

/-- Network address of an `IpNet`: the address with the host bits cleared,
as `ipnet::Ipv4Net::network`. -/
def IpNet.network (n : IpNet) : Nat :=
  n.addr / 2 ^ (32 - n.prefix_len) * 2 ^ (32 - n.prefix_len)

/-- Embedding of `ipnet::Ipv4Net::hosts().nth(i)`: the usable host addresses of
the network, excluding the network and broadcast addresses when the prefix
length is at most 30 (for /31 and /32 every address is a host). -/
def IpNet.hosts_nth (n : IpNet) (i : Nat) : Option Nat :=
  if n.prefix_len ≤ 30 then
    if i < 2 ^ (32 - n.prefix_len) - 2 then some (n.network + 1 + i) else none
  else
    if i < 2 ^ (32 - n.prefix_len) then some (n.network + i) else none

/-- Embedding of `NodeConfig` from `src/config.rs`. -/
structure NodeConfig where
  name : String
  ifaddr : IpNet
  deriving DecidableEq, Repr

/-- Embedding of `NodeConfig::default()`: empty name, `ipnet::IpNet::default()`
which is `0.0.0.0/0`. -/
def NodeConfig.default : NodeConfig :=
  { name := "", ifaddr := { addr := 0, prefix_len := 0 } }

/-- Embedding of the `IpcMessage` enum (declared in the missing
`src/ipc_message.rs`; the constructor set and payloads are exactly those used
by `src/context.rs`). -/
inductive IpcMessage where
  | Send (data : List Nat)
  | Receive
  | Wait
  | BroadcastAllSend (data : List Nat)
  | BroadcastAllRecv (payload : List (List Nat))
  deriving DecidableEq, Repr

/-- Embedding of `Context` from `src/context.rs`.  The `ipc_client` field is
not represented: the broker's replies are passed explicitly to each
primitive. -/
structure Context where
  node_index : Nat
  nodes : List NodeConfig
  step_name : Option String
  step : Nat
  ifname : String
  deriving DecidableEq, Repr

/-- Embedding of `Context::next_step`. -/
def Context.next_step (c : Context) : Context := { c with step := c.step + 1 }

/-- Embedding of `Context::step` (named `set_step` here because `step` is the
field name): stores the quoted step name. -/
def Context.set_step (c : Context) (name : String) : Context :=
  { c with step_name := some ("\"" ++ name ++ "\"") }

/-- Embedding of `Context::print_step`: if a step name is set, clear it and
log `step <name>: ok`. -/
def Context.print_step (c : Context) : Context × List String :=
  match c.step_name with
  | some s => ({ c with step_name := none }, ["step " ++ s ++ ": ok"])
  | none => (c, [])

/-- Embedding of `Drop for Context`: if a step name is still set, log
`step <name>: failed`.  Returns the emitted log lines. -/
def Context.drop (c : Context) : List String :=
  match c.step_name with
  | some s => ["step " ++ s ++ ": failed"]
  | none => []

/-- Embedding of `Context::broadcast_all`: increment the step counter, send
`BroadcastAllSend(data)`, then interpret the broker's reply.  Returns the
result, the updated context, and the emitted log lines. -/
def Context.broadcast_all (c : Context) (data : List Nat)
    (response : Option IpcMessage) :
    Except String (List (List Nat)) × Context × List String :=
  let c1 := c.next_step
  match response with
  | none => (Except.error "no response", c1, [])
  | some (IpcMessage.BroadcastAllRecv payload) =>
    let r := c1.print_step
    (Except.ok payload, r.1, r.2)
  | some _ => (Except.error "invalid response", c1, [])

/-- Embedding of `BroadcastOne` from `src/context.rs`: a wrapper around the
context, created by `Context::broadcast_one`. -/
structure BroadcastOne where
  context : Context
  deriving DecidableEq, Repr

/-- Embedding of `Context::broadcast_one`: constructs the wrapper and performs
no other state change. -/
def Context.broadcast_one (c : Context) : BroadcastOne := { context := c }

/-- Embedding of `BroadcastOne::send`: increment the step counter, send
`Send(data)`, expect a `Wait` reply, then print the step name. -/
def BroadcastOne.send (b : BroadcastOne) (data : List Nat)
    (response : Option IpcMessage) :
    Except String Unit × Context × List String :=
  let c1 := b.context.next_step
  match response with
  | none => (Except.error "no response", c1, [])
  | some IpcMessage.Wait =>
    let r := c1.print_step
    (Except.ok (), r.1, r.2)
  | some _ => (Except.error "invalid response", c1, [])

/-- Embedding of `BroadcastOne::recv`: send `Receive`, expect a `Send(data)`
reply.  The step counter, the step name, and the log are untouched. -/
def BroadcastOne.recv (b : BroadcastOne) (response : Option IpcMessage) :
    Except String (List Nat) × Context × List String :=
  match response with
  | none => (Except.error "no response", b.context, [])
  | some (IpcMessage.Send data) => (Except.ok data, b.context, [])
  | some _ => (Except.error "invalid response", b.context, [])

/-- Embedding of `BroadcastOne::wait`: send `Wait`, expect a `Wait` reply.
The step counter, the step name, and the log are untouched. -/
def BroadcastOne.wait (b : BroadcastOne) (response : Option IpcMessage) :
    Except String Unit × Context × List String :=
  match response with
  | none => (Except.error "no response", b.context, [])
  | some IpcMessage.Wait => (Except.ok (), b.context, [])
  | some _ => (Except.error "invalid response", b.context, [])

/-- Modelled from the spec: the broker state machine (`src/ipc_server.rs` and
`src/ipc_state.rs` are not present under `src/`).  A broadcast-all step
completes when every live node has submitted `BroadcastAllSend(p_i)`; this
gathers the payloads indexed by node position, or `none` when some node's
request has a different tag. -/
def gather_all : List IpcMessage → Option (List (List Nat))
  | [] => some []
  | IpcMessage.BroadcastAllSend p :: rest => (gather_all rest).map (fun l => p :: l)
  | _ :: _ => none

/-- Modelled from the spec: on completion of a broadcast-all step the broker
writes `BroadcastAllRecv([p_0, ..., p_(N-1)])` to every node. -/
def broker_broadcast_all (requests : List IpcMessage) : Option IpcMessage :=
  (gather_all requests).map IpcMessage.BroadcastAllRecv

/-- Embedding of `nix::sys::wait::WaitStatus`, restricted to the cases
`src/network.rs` distinguishes.  The signal is kept as its debug string. -/
inductive WaitStatus where
  | Exited (pid : Nat) (code : Nat)
  | Signaled (pid : Nat) (signal : String)
  | Other
  deriving DecidableEq, Repr

/-- Embedding of `wait_status_ok` from `src/network.rs`. -/
def wait_status_ok (s : WaitStatus) : Bool :=
  match s with
  | WaitStatus.Exited _ 0 => true
  | _ => false

/-- Embedding of `wait_status_to_string` from `src/network.rs`. -/
def wait_status_to_string (s : WaitStatus) : String :=
  match s with
  | WaitStatus.Exited _ code => "code " ++ toString code
  | WaitStatus.Signaled _ signal => "signal " ++ signal
  | WaitStatus.Other => "unknown"

/-- Embedding of `outer_ifname` from `src/network.rs`. -/
def outer_ifname (i : Nat) : String := "n" ++ toString i

/-- Embedding of `inner_ifname` from `src/network.rs`. -/
def inner_ifname (i : Nat) : String := "veth" ++ toString i

/-- The constant `IpNet::new(Ipv4Addr::new(10, 84, 0, 0).into(), 16)` from
`do_network_switch_main`. -/
def testnet_net : IpNet := { addr := ipv4 10 84 0 0, prefix_len := 16 }

/-- Embedding of the per-node normalisation in `do_network_switch_main`
(lines 135-148 of `src/network.rs`): default the name to `n<i>` when empty,
default an unspecified interface address to the `i`-th host of
`10.84.0.0/16`. -/
def normalize_node_config (i : Nat) (nc : NodeConfig) : Except String NodeConfig :=
  let nc1 := if nc.name = "" then { nc with name := outer_ifname i } else nc
  if nc1.ifaddr.addr = 0 then
    match testnet_net.hosts_nth i with
    | some a =>
      Except.ok { nc1 with ifaddr := { addr := a, prefix_len := testnet_net.prefix_len } }
    | none => Except.error "exhausted available IP adddress range"
  else
    Except.ok nc1

/-- The normalisation loop of `do_network_switch_main`, starting at node
index `i`. -/
def normalize_nodes_from (i : Nat) : List NodeConfig → Except String (List NodeConfig)
  | [] => Except.ok []
  | nc :: rest =>
    match normalize_node_config i nc with
    | Except.error e => Except.error e
    | Except.ok nc1 =>
      match normalize_nodes_from (i + 1) rest with
      | Except.error e => Except.error e
      | Except.ok rest1 => Except.ok (nc1 :: rest1)

/-- The normalisation loop of `do_network_switch_main` over the whole node
list. -/
def normalize_nodes (cfgs : List NodeConfig) : Except String (List NodeConfig) :=
  normalize_nodes_from 0 cfgs

/-- Dotted-quad rendering of an IPv4 address, as `std::fmt::Display` for
`Ipv4Addr`. -/
def ipv4_to_string (a : Nat) : String :=
  toString (a / 16777216 % 256) ++ "." ++ toString (a / 65536 % 256) ++ "." ++
    toString (a / 256 % 256) ++ "." ++ toString (a % 256)

/-- Embedding of the synthetic `hosts` file contents written by
`do_network_switch_main`: one `<ipaddr> <name>` line per node. -/
def hosts_content (nodes : List NodeConfig) : String :=
  String.join (nodes.map (fun node => ipv4_to_string node.ifaddr.addr ++ " " ++ node.name ++ "\n"))

/-- Embedding of the failure summary built at the end of
`do_network_switch_main`: `some nodes failed:` followed by one line per node
with its exit status. -/
def failure_summary (statuses : List WaitStatus) : String :=
  "some nodes failed:\n" ++
    String.join (statuses.enum.map (fun p =>
      "- node " ++ toString p.1 ++ " exited with " ++ wait_status_to_string p.2 ++ "\n"))

/-- Observable actions of the supervisor, the switch process, and the node
processes.  One constructor per side-effecting call in `src/network.rs`. -/
inductive Ev where
  | spawnSwitch
  | writeUidMap (content : String)
  | writeSetgroups (content : String)
  | writeGidMap (content : String)
  | closeSender
  | setProcessName (name : String)
  | setHostname (name : String)
  | waitUntilClosed
  | netlinkOpen
  | netlinkClose
  | newBridge (name : String)
  | createTempDir
  | writeHostsFile (content : String)
  | bindMountHosts
  | logWarning (msg : String)
  | createPipes (i : Nat)
  | spawnNode (i : Nat)
  | ipcServerRun
  | waitNode (i : Nat)
  | dupStdout
  | dupStderr
  | closeStdin
  | openNsFile (which : String)
  | setNs (which : String)
  | nlIndex (ifname : String)
  | newVethPair (outer inner : String)
  | setUp (ifname : String)
  | setBridge (ifname : String) (bridgeIndex : Nat)
  | setNetworkNamespace (ifname : String) (ns : String)
  | setIfaddr (ifindex : Nat) (ifaddr : IpNet)
  | runMain (i : Nat)
  deriving DecidableEq, Repr

/-- True exactly for the events produced through the netlink socket. -/
def is_netlink_ev : Ev → Bool
  | Ev.netlinkOpen => true
  | Ev.netlinkClose => true
  | Ev.newBridge _ => true
  | Ev.nlIndex _ => true
  | Ev.newVethPair _ _ => true
  | Ev.setUp _ => true
  | Ev.setBridge _ _ => true
  | Ev.setNetworkNamespace _ _ => true
  | Ev.setIfaddr _ _ => true
  | _ => false

/-- True exactly for the netlink events that configure a particular node's
interfaces (the veth reparenting dance and address assignment). -/
def is_per_node_netlink_ev : Ev → Bool
  | Ev.newVethPair _ _ => true
  | Ev.setBridge _ _ => true
  | Ev.setNetworkNamespace _ _ => true
  | Ev.setIfaddr _ _ => true
  | _ => false

/-- True exactly for `spawnNode` events. -/
def is_spawn_node_ev : Ev → Bool
  | Ev.spawnNode _ => true
  | _ => false

/-- Outcomes of the fallible environment interactions of `Network::new` and
`do_network_switch_main`: `none` means the call succeeds, `some e` that it
fails with message `e`.  `statuses` are the exit statuses `node.wait()`
returns for the node processes, in node order. -/
structure World where
  uid : Nat
  gid : Nat
  spawn_res : Option String
  uid_map_res : Option String
  setgroups_res : Option String
  gid_map_res : Option String
  close_res : Option String
  new_bridge_res : Option String
  mount_res : Option String
  statuses : List WaitStatus
  deriving DecidableEq, Repr

/-- Embedding of `Network::new` from `src/network.rs`: spawn the switch child,
write `uid_map`, write `setgroups`, write `gid_map`, close the ready-channel
sender; the first failing step's error is returned.  The second component is
the list of actions performed (a failing action is recorded as attempted). -/
def network_new (w : World) : Except String Unit × List Ev :=
  match w.spawn_res with
  | some e => (Except.error e, [Ev.spawnSwitch])
  | none =>
    match w.uid_map_res with
    | some e =>
      (Except.error e,
        [Ev.spawnSwitch, Ev.writeUidMap ("0 " ++ toString w.uid ++ " 1")])
    | none =>
      match w.setgroups_res with
      | some e =>
        (Except.error e,
          [Ev.spawnSwitch, Ev.writeUidMap ("0 " ++ toString w.uid ++ " 1"),
           Ev.writeSetgroups "deny"])
      | none =>
        match w.gid_map_res with
        | some e =>
          (Except.error e,
            [Ev.spawnSwitch, Ev.writeUidMap ("0 " ++ toString w.uid ++ " 1"),
             Ev.writeSetgroups "deny", Ev.writeGidMap ("0 " ++ toString w.gid ++ " 1")])
        | none =>
          match w.close_res with
          | some e =>
            (Except.error e,
              [Ev.spawnSwitch, Ev.writeUidMap ("0 " ++ toString w.uid ++ " 1"),
               Ev.writeSetgroups "deny", Ev.writeGidMap ("0 " ++ toString w.gid ++ " 1"),
               Ev.closeSender])
          | none =>
            (Except.ok (),
              [Ev.spawnSwitch, Ev.writeUidMap ("0 " ++ toString w.uid ++ " 1"),
               Ev.writeSetgroups "deny", Ev.writeGidMap ("0 " ++ toString w.gid ++ " 1"),
               Ev.closeSender])

/-- The actions `do_network_switch_main` performs before its first fallible
netlink call: set the process name, set the hostname, wait for the ready
channel to be closed, open the netlink socket. -/
def switch_prefix_events : List Ev :=
  [Ev.setProcessName "testnet/switch", Ev.setHostname "switch",
   Ev.waitUntilClosed, Ev.netlinkOpen]

/-- The per-node actions of the spawn loop in `do_network_switch_main`:
create the IPC pipes, then spawn the node child. -/
def spawn_events (n : Nat) : List Ev :=
  (List.range n).flatMap (fun i => [Ev.createPipes i, Ev.spawnNode i])

/-- Embedding of `do_network_switch_main` from `src/network.rs`: bootstrap in
source order (name, hostname, wait for ready, netlink socket, bridge,
normalisation, hosts file, bind mount with failure downgraded to a warning,
spawn loop, IPC broker, reap loop, per-node failure summary).  Returns the
result and the performed actions. -/
def do_network_switch_main (w : World) (cfgs : List NodeConfig) :
    Except String Unit × List Ev :=
  match w.new_bridge_res with
  | some e => (Except.error e, switch_prefix_events ++ [Ev.newBridge "testnet"])
  | none =>
    match normalize_nodes cfgs with
    | Except.error e => (Except.error e, switch_prefix_events ++ [Ev.newBridge "testnet"])
    | Except.ok nodes =>
      let evs1 := switch_prefix_events ++
        [Ev.newBridge "testnet", Ev.createTempDir, Ev.writeHostsFile (hosts_content nodes)]
      let evs2 :=
        match w.mount_res with
        | some e =>
          evs1 ++ [Ev.bindMountHosts,
            Ev.logWarning
              ("WARNING: bind mount failed (" ++ e ++ "), node hostnames will not be available")]
        | none => evs1 ++ [Ev.bindMountHosts]
      let evs3 := evs2 ++ spawn_events nodes.length ++ [Ev.ipcServerRun] ++
        (List.range nodes.length).map Ev.waitNode
      if w.statuses.all wait_status_ok then (Except.ok (), evs3)
      else (Except.error (failure_summary w.statuses), evs3)

/-- Embedding of `network_switch_main` from `src/network.rs`: exit code 0 on
success, otherwise log `network main failed: <e>` and exit 1. -/
def network_switch_main (w : World) (cfgs : List NodeConfig) : Nat × List String :=
  match (do_network_switch_main w cfgs).1 with
  | Except.ok _ => (0, [])
  | Except.error e => (1, ["network main failed: " ++ e])

/-- Embedding of `Network::wait`: the switch child's exit status. -/
def network_wait (w : World) (cfgs : List NodeConfig) : WaitStatus :=
  WaitStatus.Exited 0 (network_switch_main w cfgs).1

/-- Embedding of `testnet` from `src/network.rs`: `Network::new`, then match
the switch's wait status; anything but exit code 0 becomes the error
`some nodes failed`. -/
def testnet (w : World) (cfgs : List NodeConfig) : Except String Unit :=
  match (network_new w).1 with
  | Except.error e => Except.error e
  | Except.ok _ =>
    match network_wait w cfgs with
    | WaitStatus.Exited _ 0 => Except.ok ()
    | _ => Except.error "some nodes failed"

/-- Embedding of `configure_network` from `src/network.rs`, as the ordered
list of actions it performs.  `b` is the bridge index returned by
`netlink.index("testnet")` and `ii` the index of `veth<i>` returned in the
node's namespace. -/
def configure_network_events (i : Nat) (ifaddr : IpNet) (b ii : Nat) : List Ev :=
  [Ev.openNsFile "old", Ev.openNsFile "parent", Ev.setNs "parent", Ev.netlinkOpen,
   Ev.nlIndex "testnet", Ev.newVethPair (outer_ifname i) (inner_ifname i),
   Ev.setUp (outer_ifname i), Ev.setBridge (outer_ifname i) b,
   Ev.setNetworkNamespace (inner_ifname i) "old", Ev.netlinkClose,
   Ev.setNs "old", Ev.netlinkOpen, Ev.setUp "lo", Ev.nlIndex (inner_ifname i),
   Ev.setUp (inner_ifname i), Ev.setIfaddr ii ifaddr, Ev.netlinkClose]

/-- Embedding of `do_network_node_main` from `src/network.rs`, as the ordered
list of actions the node child performs: redirect stdio, set process name and
hostname, run `configure_network`, then invoke the user `main`. -/
def do_network_node_main_events (i : Nat) (name : String) (ifaddr : IpNet)
    (b ii : Nat) : List Ev :=
  [Ev.dupStdout, Ev.dupStderr, Ev.closeStdin,
   Ev.setProcessName ("testnet/" ++ name), Ev.setHostname name] ++
    configure_network_events i ifaddr b ii ++ [Ev.runMain i]

/-- A concrete context used by the concrete-input theorems below. -/
def ctx0 : Context :=
  { node_index := 0, nodes := [], step_name := none, step := 0, ifname := "veth0" }

/-- A world where every environment interaction succeeds and both nodes exit
with code 0. -/
def world0 : World :=
  { uid := 1000, gid := 1000, spawn_res := none, uid_map_res := none,
    setgroups_res := none, gid_map_res := none, close_res := none,
    new_bridge_res := none, mount_res := none,
    statuses := [WaitStatus.Exited 100 0, WaitStatus.Exited 101 0] }

/-- A world identical to `world0` except that creating the bridge fails. -/
def world_nl : World := { world0 with new_bridge_res := some "netlink failure" }

/-- A world identical to `world0` except that the second node exits with
code 1. -/
def world_fail : World :=
  { world0 with statuses := [WaitStatus.Exited 100 0, WaitStatus.Exited 101 1] }

/-- Two node configurations with explicit names and addresses, which the
normalisation pass leaves unchanged. -/
def cfgs2 : List NodeConfig :=
  [{ name := "a", ifaddr := { addr := ipv4 10 0 0 1, prefix_len := 24 } },
   { name := "b", ifaddr := { addr := ipv4 10 0 0 2, prefix_len := 24 } }]

/-! Helper lemmas. -/

/-- `print_step` never changes the step counter. -/
theorem print_step_step (c : Context) : (Context.print_step c).1.step = c.step := by
  rcases hc : c.step_name with _ | s <;> simp [Context.print_step, hc]

/-- Gathering a list of `BroadcastAllSend` requests yields exactly the list of
payloads, in order. -/
theorem gather_all_map (ps : List (List Nat)) :
    gather_all (ps.map IpcMessage.BroadcastAllSend) = some ps := by
  induction ps with
  | nil => rfl
  | cons p rest ih => simp [gather_all, ih]

/-- The `i`-th usable host of `10.84.0.0/16` is `10.84.0.0 + 1 + i`, for
`i < 65534`. -/
theorem testnet_hosts_nth (i : Nat) (h : i < 65534) :
    testnet_net.hosts_nth i = some (ipv4 10 84 0 0 + 1 + i) := by
  have hc : i < 2 ^ (32 - testnet_net.prefix_len) - 2 := by
    show i < 2 ^ 16 - 2
    omega
  unfold IpNet.hosts_nth
  rw [if_pos (show testnet_net.prefix_len ≤ 30 by decide), if_pos hc]
  norm_num [IpNet.network, testnet_net, ipv4]

/-- The prefix length of the default allocation network is 16. -/
theorem testnet_net_prefix : testnet_net.prefix_len = 16 := rfl

/-- The only error `normalize_node_config` can produce is the exhausted-range
message. -/
theorem normalize_node_config_error_msg (i : Nat) (nc : NodeConfig) (e : String)
    (h : normalize_node_config i nc = Except.error e) :
    e = "exhausted available IP adddress range" := by
  by_cases hn : nc.name = "" <;> by_cases h0 : nc.ifaddr.addr = 0 <;>
    rcases hh : testnet_net.hosts_nth i with _ | a <;>
    simp_all [normalize_node_config]

/-- Normalisation of a node with an unspecified address fails at index
`k ≥ 65534`. -/
theorem normalize_node_config_exhaust (k : Nat) (nc : NodeConfig)
    (h0 : nc.ifaddr.addr = 0) (hk : 65534 ≤ k) :
    normalize_node_config k nc = Except.error "exhausted available IP adddress range" := by
  have hh : testnet_net.hosts_nth k = none := by
    have hlt : ¬ k < 2 ^ (32 - testnet_net.prefix_len) - 2 := by
      show ¬ k < 2 ^ 16 - 2
      have h16 : (2 : Nat) ^ 16 - 2 = 65534 := by norm_num
      omega
    unfold IpNet.hosts_nth
    rw [if_pos (show testnet_net.prefix_len ≤ 30 by decide), if_neg hlt]
  by_cases hn : nc.name = "" <;> simp [normalize_node_config, hn, h0, hh]

/-- The normalisation loop fails with the exhausted-range message whenever
some node whose overall index is at least 65534 has an unspecified address. -/
theorem normalize_from_exhaust :
    ∀ (cfgs : List NodeConfig) (k i : Nat) (h1 : i < cfgs.length),
      (cfgs.get ⟨i, h1⟩).ifaddr.addr = 0 → 65534 ≤ k + i →
      normalize_nodes_from k cfgs = Except.error "exhausted available IP adddress range" := by
  intro cfgs
  induction cfgs with
  | nil => intro k i h1 _ _; exact absurd h1 (by simp)
  | cons nc rest ih =>
    intro k i h1 h2 h3
    cases i with
    | zero =>
      unfold normalize_nodes_from
      rw [normalize_node_config_exhaust k nc h2 (by omega)]
    | succ j =>
      have h1r : j < rest.length := by
        simp only [List.length_cons] at h1
        omega
      unfold normalize_nodes_from
      rcases hh : normalize_node_config k nc with e | nc1
      · rw [normalize_node_config_error_msg k nc e hh]
      · rw [ih (k + 1) j h1r h2 (by omega)]

/-- The spawn loop only creates pipes and spawns node children; it performs no
per-node netlink configuration. -/
theorem spawn_events_no_per_node (n : Nat) :
    ∀ ev ∈ spawn_events n, is_per_node_netlink_ev ev = false := by
  intro ev hev
  rw [spawn_events, List.mem_flatMap] at hev
  obtain ⟨i, _, hm⟩ := hev
  simp only [List.mem_cons, List.not_mem_nil, or_false] at hm
  rcases hm with rfl | rfl <;> rfl

/-- The reap loop performs no per-node netlink configuration. -/
theorem wait_events_no_per_node (n : Nat) :
    ∀ ev ∈ (List.range n).map Ev.waitNode, is_per_node_netlink_ev ev = false := by
  intro ev hev
  rw [List.mem_map] at hev
  obtain ⟨i, _, rfl⟩ := hev
  rfl

/-! Claim theorems. -/

/-- C1: for every node count `N ≥ 2` and byte payloads `p_0 .. p_(N-1)`, when
every node `i` submits `BroadcastAllSend(p_i)` in the same step, the broker's
reply makes `broadcast_all` return `Ok` on every node with the vector
`[p_0, ..., p_(N-1)]`, where position `i` holds exactly `p_i`. -/
theorem c1_broadcast_all_round (ps : List (List Nat)) (h2 : 2 ≤ ps.length)
    (i : Nat) (hi : i < ps.length) (c : Context) :
    (Context.broadcast_all c (ps.get ⟨i, hi⟩)
      (broker_broadcast_all (ps.map IpcMessage.BroadcastAllSend))).1 = Except.ok ps := by
  simp [Context.broadcast_all, broker_broadcast_all, gather_all_map ps]

/-- Witness for C1: two nodes broadcasting `[1]` and `[2]`; node 0 receives
`[[1], [2]]`. -/
theorem c1_broadcast_all_round_witness :
    2 ≤ ([[1], [2]] : List (List Nat)).length ∧
    (Context.broadcast_all ctx0 [1]
      (broker_broadcast_all ([[1], [2]].map IpcMessage.BroadcastAllSend))).1 =
        Except.ok [[1], [2]] :=
  ⟨by decide, c1_broadcast_all_round [[1], [2]] (by decide) 0 (by decide) ctx0⟩

/-- C3: during switch bootstrap, an empty node name is replaced by `n<i>` and
an unspecified interface address by the `i`-th host of `10.84.0.0/16` with
prefix length 16 (node 0 gets `10.84.0.1/16`, node 1 gets `10.84.0.2/16`); a
non-empty name and a specified address are left unchanged. -/
theorem c3_node_defaults (i : Nat) (nc : NodeConfig) (hlt : i < 65534) :
    (nc.ifaddr.addr = 0 →
      normalize_node_config i nc =
        Except.ok { name := if nc.name = "" then outer_ifname i else nc.name,
                    ifaddr := { addr := ipv4 10 84 0 0 + 1 + i, prefix_len := 16 } }) ∧
    (nc.ifaddr.addr ≠ 0 →
      normalize_node_config i nc =
        Except.ok { name := if nc.name = "" then outer_ifname i else nc.name,
                    ifaddr := nc.ifaddr }) ∧
    normalize_node_config 0 NodeConfig.default =
      Except.ok { name := "n0", ifaddr := { addr := ipv4 10 84 0 1, prefix_len := 16 } } ∧
    normalize_node_config 1 NodeConfig.default =
      Except.ok { name := "n1", ifaddr := { addr := ipv4 10 84 0 2, prefix_len := 16 } } := by
  refine ⟨?_, ?_, by rfl, by rfl⟩ <;>
    intro h0 <;>
    by_cases hn : nc.name = "" <;>
    simp [normalize_node_config, testnet_hosts_nth i hlt, hn, h0, testnet_net_prefix]

/-- Witness for C3: node 0 with the default configuration is assigned the name
`n0` and the address `10.84.0.1/16`. -/
theorem c3_node_defaults_witness :
    (0 : Nat) < 65534 ∧ NodeConfig.default.ifaddr.addr = 0 ∧
    normalize_node_config 0 NodeConfig.default =
      Except.ok
        { name := if NodeConfig.default.name = "" then outer_ifname 0
                  else NodeConfig.default.name,
          ifaddr := { addr := ipv4 10 84 0 0 + 1 + 0, prefix_len := 16 } } :=
  ⟨by decide, rfl, (c3_node_defaults 0 NodeConfig.default (by decide)).1 rfl⟩

/-- C4 counterexample: constructing a `BroadcastOne` does not increment the
step counter (it stays 0 instead of becoming 1), and a successful `recv` (and
`wait`) leaves the step counter unchanged, contradicting the claim that
construction increments the counter and that each of `send`, `recv`, `wait`
advances it by exactly one. -/
theorem c4_step_counter_counterexample :
    ctx0.step = 0 ∧
    (Context.broadcast_one ctx0).context.step = 0 ∧
    ¬ (Context.broadcast_one ctx0).context.step = ctx0.step + 1 ∧
    (BroadcastOne.recv (Context.broadcast_one ctx0) (some (IpcMessage.Send [7]))).1 =
      Except.ok [7] ∧
    (BroadcastOne.recv (Context.broadcast_one ctx0) (some (IpcMessage.Send [7]))).2.1.step = 0 ∧
    (BroadcastOne.wait (Context.broadcast_one ctx0) (some IpcMessage.Wait)).1 = Except.ok () ∧
    (BroadcastOne.wait (Context.broadcast_one ctx0) (some IpcMessage.Wait)).2.1.step = 0 := by
  refine ⟨rfl, rfl, by decide, rfl, rfl, rfl, rfl⟩

/-- C4 amended: constructing a `BroadcastOne` leaves the step counter
unchanged; `send` and `broadcast_all` increment it by exactly one (whatever
the reply); `recv` and `wait` leave it unchanged. -/
theorem c4_step_counter_amended (c : Context) (data : List Nat) (r : Option IpcMessage) :
    (Context.broadcast_one c).context.step = c.step ∧
    (BroadcastOne.send (Context.broadcast_one c) data r).2.1.step = c.step + 1 ∧
    (BroadcastOne.recv (Context.broadcast_one c) r).2.1.step = c.step ∧
    (BroadcastOne.wait (Context.broadcast_one c) r).2.1.step = c.step ∧
    (Context.broadcast_all c data r).2.1.step = c.step + 1 := by
  refine ⟨rfl, ?_, ?_, ?_, ?_⟩ <;>
    rcases r with _ | m <;>
    first
      | rfl
      | cases m <;>
          simp [BroadcastOne.send, BroadcastOne.recv, BroadcastOne.wait,
            Context.broadcast_all, Context.broadcast_one, Context.next_step,
            print_step_step]

/-- C6: every node-side primitive returns the error `invalid response` exactly
when the broker's reply carries an unexpected tag: `send` and `wait` expect
`Wait`, `recv` expects `Send(data)`, `broadcast_all` expects
`BroadcastAllRecv(vec)`; in that case no payload is delivered. -/
theorem c6_invalid_response :
    (∀ (c : Context) (d : List Nat) (m : IpcMessage),
      ((Context.broadcast_all c d (some m)).1 = Except.error "invalid response" ↔
        ∀ v, m ≠ IpcMessage.BroadcastAllRecv v)) ∧
    (∀ (c : Context) (d : List Nat) (m : IpcMessage),
      ((BroadcastOne.send (Context.broadcast_one c) d (some m)).1 =
          Except.error "invalid response" ↔ m ≠ IpcMessage.Wait)) ∧
    (∀ (c : Context) (m : IpcMessage),
      ((BroadcastOne.recv (Context.broadcast_one c) (some m)).1 =
          Except.error "invalid response" ↔ ∀ d, m ≠ IpcMessage.Send d)) ∧
    (∀ (c : Context) (m : IpcMessage),
      ((BroadcastOne.wait (Context.broadcast_one c) (some m)).1 =
          Except.error "invalid response" ↔ m ≠ IpcMessage.Wait)) := by
  refine ⟨fun c d m => ?_, fun c d m => ?_, fun c m => ?_, fun c m => ?_⟩ <;>
    cases m <;>
    simp [Context.broadcast_all, BroadcastOne.send, BroadcastOne.recv,
      BroadcastOne.wait, Context.broadcast_one]

/-- C9 counterexample: with a step name set, a successful `recv` emits no log
line and does not clear the step name, contradicting the claim that every
successful primitive logs `step "<name>": ok` and clears the name. -/
theorem c9_recv_keeps_step_name_counterexample :
    (BroadcastOne.recv (Context.broadcast_one (Context.set_step ctx0 "s"))
        (some (IpcMessage.Send [7]))).1 = Except.ok [7] ∧
    (BroadcastOne.recv (Context.broadcast_one (Context.set_step ctx0 "s"))
        (some (IpcMessage.Send [7]))).2.2 = [] ∧
    (BroadcastOne.recv (Context.broadcast_one (Context.set_step ctx0 "s"))
        (some (IpcMessage.Send [7]))).2.1.step_name = some "\"s\"" :=
  ⟨rfl, rfl, rfl⟩

/-- C9 amended: after a successful `send` or `broadcast_all` with a step name
set, the context logs `step "<name>": ok` and clears the name; `recv` and
`wait` emit nothing and leave the name untouched; dropping the context with
the name still set logs `step "<name>": failed`; and the step name never
influences the result of an operation. -/
theorem c9_step_logging_amended (c : Context) (name : String) (data : List Nat)
    (r : Option IpcMessage) (s1 s2 : Option String) :
    BroadcastOne.send (Context.broadcast_one (Context.set_step c name)) data
        (some IpcMessage.Wait) =
      (Except.ok (), { c with step := c.step + 1, step_name := none },
        ["step " ++ ("\"" ++ name ++ "\"") ++ ": ok"]) ∧
    Context.broadcast_all (Context.set_step c name) data
        (some (IpcMessage.BroadcastAllRecv [data])) =
      (Except.ok [data], { c with step := c.step + 1, step_name := none },
        ["step " ++ ("\"" ++ name ++ "\"") ++ ": ok"]) ∧
    (BroadcastOne.recv (Context.broadcast_one c) r).2.1.step_name = c.step_name ∧
    (BroadcastOne.recv (Context.broadcast_one c) r).2.2 = [] ∧
    (BroadcastOne.wait (Context.broadcast_one c) r).2.1.step_name = c.step_name ∧
    (BroadcastOne.wait (Context.broadcast_one c) r).2.2 = [] ∧
    Context.drop (Context.set_step c name) =
      ["step " ++ ("\"" ++ name ++ "\"") ++ ": failed"] ∧
    Context.drop { c with step_name := none } = [] ∧
    (Context.broadcast_all { c with step_name := s1 } data r).1 =
      (Context.broadcast_all { c with step_name := s2 } data r).1 ∧
    (BroadcastOne.send (Context.broadcast_one { c with step_name := s1 }) data r).1 =
      (BroadcastOne.send (Context.broadcast_one { c with step_name := s2 }) data r).1 := by
  refine ⟨rfl, rfl, ?_, ?_, ?_, ?_, rfl, rfl, ?_, ?_⟩ <;>
    rcases r with _ | m <;>
    first
      | rfl
      | cases m <;> rfl

/-- C2: provided setup succeeds (spawn, map writes, ready close, bridge
creation, normalisation), `testnet` returns `Ok` exactly when every node
process exits with code 0; otherwise the switch logs a per-node failure
summary, exits with code 1, and `testnet` returns the error
`some nodes failed`. -/
theorem c2_testnet_exit (w : World) (cfgs nodes : List NodeConfig)
    (hok : (network_new w).1 = Except.ok ())
    (hbr : w.new_bridge_res = none)
    (hn : normalize_nodes cfgs = Except.ok nodes) :
    (testnet w cfgs = Except.ok () ↔ w.statuses.all wait_status_ok = true) ∧
    (w.statuses.all wait_status_ok = false →
      network_switch_main w cfgs =
        (1, ["network main failed: " ++ failure_summary w.statuses]) ∧
      testnet w cfgs = Except.error "some nodes failed") := by
  cases hall : w.statuses.all wait_status_ok <;>
    simp [testnet, network_wait, network_switch_main, do_network_switch_main,
      hok, hbr, hn, hall]

/-- Witness for C2: an all-successful bootstrap with node 1 exiting with
code 1 makes `testnet` fail with `some nodes failed` and the switch log the
per-node summary. -/
theorem c2_testnet_exit_witness :
    (testnet world_fail cfgs2 = Except.ok () ↔
      world_fail.statuses.all wait_status_ok = true) ∧
    network_switch_main world_fail cfgs2 =
      (1, ["network main failed: " ++ failure_summary world_fail.statuses]) ∧
    testnet world_fail cfgs2 = Except.error "some nodes failed" := by
  have h := c2_testnet_exit world_fail cfgs2 cfgs2 rfl rfl rfl
  exact ⟨h.1, (h.2 rfl).1, (h.2 rfl).2⟩

/-- C5 counterexample: when the switch's `new_bridge` netlink call fails,
`Network::new` itself still returns `Ok` — the netlink failure is fatal to
the run (the switch exits 1 and `testnet` errors) but is not surfaced as an
error returned from `Network::new`, contradicting the claim. -/
theorem c5_netlink_not_from_network_new_counterexample :
    (network_new world_nl).1 = Except.ok () ∧
    (do_network_switch_main world_nl [NodeConfig.default]).1 =
      Except.error "netlink failure" ∧
    testnet world_nl [NodeConfig.default] = Except.error "some nodes failed" :=
  ⟨rfl, rfl, rfl⟩

/-- C5 amended: spawn, `uid_map`, `setgroups`, `gid_map` and ready-close
failures are surfaced as errors from `Network::new`; a netlink failure in the
switch is fatal to the whole network but surfaces through the switch's exit
code (and hence `testnet`), not from `Network::new`; failure of the bind
mount over `/etc/hosts` never changes the outcome and is only logged as a
warning. -/
theorem c5_setup_failures_amended (w : World) (cfgs nodes : List NodeConfig) (e : String)
    (hn : normalize_nodes cfgs = Except.ok nodes) :
    (network_new { w with spawn_res := some e }).1 = Except.error e ∧
    (network_new { w with spawn_res := none, uid_map_res := some e }).1 =
      Except.error e ∧
    (network_new
        { w with spawn_res := none, uid_map_res := none,
                 setgroups_res := some e }).1 = Except.error e ∧
    (network_new
        { w with spawn_res := none, uid_map_res := none, setgroups_res := none,
                 gid_map_res := some e }).1 = Except.error e ∧
    (network_new
        { w with spawn_res := none, uid_map_res := none, setgroups_res := none,
                 gid_map_res := none, close_res := some e }).1 = Except.error e ∧
    (do_network_switch_main { w with new_bridge_res := some e } cfgs).1 =
      Except.error e ∧
    testnet
        { w with spawn_res := none, uid_map_res := none, setgroups_res := none,
                 gid_map_res := none, close_res := none, new_bridge_res := some e }
        cfgs = Except.error "some nodes failed" ∧
    (do_network_switch_main { w with mount_res := some e } cfgs).1 =
      (do_network_switch_main { w with mount_res := none } cfgs).1 ∧
    (w.new_bridge_res = none →
      Ev.logWarning
          ("WARNING: bind mount failed (" ++ e ++ "), node hostnames will not be available") ∈
        (do_network_switch_main { w with mount_res := some e } cfgs).2) := by
  refine ⟨rfl, rfl, rfl, rfl, rfl, rfl, rfl, ?_, ?_⟩
  · rcases hb : w.new_bridge_res with _ | eb <;>
      cases hall : w.statuses.all wait_status_ok <;>
      simp [do_network_switch_main, hb, hn, hall]
  · intro hb
    cases hall : w.statuses.all wait_status_ok <;>
      simp [do_network_switch_main, hb, hn, hall]

/-- Witness for C5 (amended): with all other interactions succeeding, a spawn
failure surfaces from `Network::new`, a bridge failure makes the switch fail,
and a mount failure only logs a warning. -/
theorem c5_setup_failures_amended_witness :
    (network_new { world0 with spawn_res := some "boom" }).1 = Except.error "boom" ∧
    (do_network_switch_main { world0 with new_bridge_res := some "boom" } cfgs2).1 =
      Except.error "boom" ∧
    Ev.logWarning "WARNING: bind mount failed (boom), node hostnames will not be available" ∈
      (do_network_switch_main { world0 with mount_res := some "boom" } cfgs2).2 := by
  have h := c5_setup_failures_amended world0 cfgs2 cfgs2 "boom" rfl
  exact ⟨h.1, h.2.2.2.2.2.1, h.2.2.2.2.2.2.2.2 rfl⟩

/-- C7 counterexample: the veth pair `(n0, veth0)` is created by the node
child process (inside `do_network_node_main` via `configure_network`), not by
the switch: the switch's own action trace never contains a `newVethPair`
action, contradicting the claim that the switch performs the per-node network
configuration. -/
theorem c7_switch_does_not_do_veth_counterexample :
    Ev.newVethPair "n0" "veth0" ∈
      do_network_node_main_events 0 "n0"
        { addr := ipv4 10 84 0 1, prefix_len := 16 } 2 3 ∧
    Ev.newVethPair "n0" "veth0" ∉
      (do_network_switch_main world0 [NodeConfig.default, NodeConfig.default]).2 := by
  constructor <;> decide

/-- C7 amended: the per-node network configuration is performed by the node's
own process, which first enters the parent (switch) namespace: it creates the
veth pair `(n<i>, veth<i>)`, brings the outer end up, attaches it to the
bridge, moves the inner end into the node's namespace; then, back in the
node's namespace over a freshly opened netlink socket, brings up `lo`, brings
up `veth<i>` and assigns the node's address.  The switch's trace contains no
per-node netlink operation. -/
theorem c7_configure_network_order (i : Nat) (a : IpNet) (b ii : Nat) (name : String) :
    do_network_node_main_events i name a b ii =
      [Ev.dupStdout, Ev.dupStderr, Ev.closeStdin,
       Ev.setProcessName ("testnet/" ++ name), Ev.setHostname name] ++
        configure_network_events i a b ii ++ [Ev.runMain i] ∧
    (configure_network_events i a b ii)[2]? = some (Ev.setNs "parent") ∧
    (configure_network_events i a b ii)[5]? =
      some (Ev.newVethPair (outer_ifname i) (inner_ifname i)) ∧
    (configure_network_events i a b ii)[6]? = some (Ev.setUp (outer_ifname i)) ∧
    (configure_network_events i a b ii)[7]? = some (Ev.setBridge (outer_ifname i) b) ∧
    (configure_network_events i a b ii)[8]? =
      some (Ev.setNetworkNamespace (inner_ifname i) "old") ∧
    (configure_network_events i a b ii)[10]? = some (Ev.setNs "old") ∧
    (configure_network_events i a b ii)[11]? = some Ev.netlinkOpen ∧
    (configure_network_events i a b ii)[12]? = some (Ev.setUp "lo") ∧
    (configure_network_events i a b ii)[14]? = some (Ev.setUp (inner_ifname i)) ∧
    (configure_network_events i a b ii)[15]? = some (Ev.setIfaddr ii a) ∧
    (∀ (w : World) (cfgs : List NodeConfig),
      ((do_network_switch_main w cfgs).2.all
        (fun ev => !is_per_node_netlink_ev ev)) = true) := by
  refine ⟨rfl, rfl, rfl, rfl, rfl, rfl, rfl, rfl, rfl, rfl, rfl, ?_⟩
  intro w cfgs
  rcases hb : w.new_bridge_res with _ | eb <;>
    [skip; simp [do_network_switch_main, hb, switch_prefix_events, is_per_node_netlink_ev]]
  rcases hnn : normalize_nodes cfgs with en | nodes <;>
    cases hall : w.statuses.all wait_status_ok <;>
    rcases hm : w.mount_res with _ | em <;>
    simp [do_network_switch_main, hb, hnn, hall, hm, switch_prefix_events,
      is_per_node_netlink_ev, List.all_append] <;>
    exact spawn_events_no_per_node _

/-- C8 counterexample: in the switch's action trace, `sethostname` (an
operation on the switch's fresh UTS namespace) is performed at position 1,
before `wait_until_closed` at position 2 — the switch does namespace work
before the ready channel is closed, contradicting the claim. -/
theorem c8_sethostname_before_ready_counterexample :
    (do_network_switch_main world0 cfgs2).2.take 3 =
      [Ev.setProcessName "testnet/switch", Ev.setHostname "switch",
       Ev.waitUntilClosed] ∧
    (do_network_switch_main world0 cfgs2).2[1]? = some (Ev.setHostname "switch") ∧
    (do_network_switch_main world0 cfgs2).2[2]? = some Ev.waitUntilClosed :=
  ⟨rfl, rfl, rfl⟩

/-- C8 amended: the parent writes `uid_map`, then `setgroups` (`deny`), then
`gid_map` (so the `setgroups` write precedes the `gid_map` write) and closes
the ready-channel sender only after all three writes; the switch performs no
netlink work before the ready channel is closed — the only actions preceding
`wait_until_closed` are setting its process name and its hostname (the latter
touches the fresh UTS namespace). -/
theorem c8_bootstrap_order_amended (w : World) (cfgs : List NodeConfig) :
    (network_new
        { w with spawn_res := none, uid_map_res := none, setgroups_res := none,
                 gid_map_res := none, close_res := none }).2 =
      [Ev.spawnSwitch, Ev.writeUidMap ("0 " ++ toString w.uid ++ " 1"),
       Ev.writeSetgroups "deny", Ev.writeGidMap ("0 " ++ toString w.gid ++ " 1"),
       Ev.closeSender] ∧
    (∃ rest, (do_network_switch_main w cfgs).2 =
      [Ev.setProcessName "testnet/switch", Ev.setHostname "switch",
       Ev.waitUntilClosed, Ev.netlinkOpen, Ev.newBridge "testnet"] ++ rest) ∧
    is_netlink_ev (Ev.setProcessName "testnet/switch") = false ∧
    is_netlink_ev (Ev.setHostname "switch") = false := by
  refine ⟨rfl, ?_, rfl, rfl⟩
  rcases hb : w.new_bridge_res with _ | eb <;>
    [skip; exact ⟨[], by simp [do_network_switch_main, hb, switch_prefix_events]⟩]
  rcases hnn : normalize_nodes cfgs with en | nodes
  · exact ⟨[], by simp [do_network_switch_main, hb, hnn, switch_prefix_events]⟩
  · rcases hm : w.mount_res with _ | em <;> cases hall : w.statuses.all wait_status_ok
    · exact ⟨[Ev.createTempDir, Ev.writeHostsFile (hosts_content nodes),
          Ev.bindMountHosts] ++ spawn_events nodes.length ++ [Ev.ipcServerRun] ++
          (List.range nodes.length).map Ev.waitNode,
        by simp [do_network_switch_main, hb, hnn, hm, hall, switch_prefix_events]⟩
    · exact ⟨[Ev.createTempDir, Ev.writeHostsFile (hosts_content nodes),
          Ev.bindMountHosts] ++ spawn_events nodes.length ++ [Ev.ipcServerRun] ++
          (List.range nodes.length).map Ev.waitNode,
        by simp [do_network_switch_main, hb, hnn, hm, hall, switch_prefix_events]⟩
    · exact ⟨[Ev.createTempDir, Ev.writeHostsFile (hosts_content nodes),
          Ev.bindMountHosts,
          Ev.logWarning
            ("WARNING: bind mount failed (" ++ em ++ "), node hostnames will not be available")] ++
          spawn_events nodes.length ++ [Ev.ipcServerRun] ++
          (List.range nodes.length).map Ev.waitNode,
        by simp [do_network_switch_main, hb, hnn, hm, hall, switch_prefix_events]⟩
    · exact ⟨[Ev.createTempDir, Ev.writeHostsFile (hosts_content nodes),
          Ev.bindMountHosts,
          Ev.logWarning
            ("WARNING: bind mount failed (" ++ em ++ "), node hostnames will not be available")] ++
          spawn_events nodes.length ++ [Ev.ipcServerRun] ++
          (List.range nodes.length).map Ev.waitNode,
        by simp [do_network_switch_main, hb, hnn, hm, hall, switch_prefix_events]⟩

/-- C10: when some node with an unspecified address has index `i ≥ 65534`
(beyond the last host of `10.84.0.0/16`), the switch bootstrap fails with the
error `exhausted available IP adddress range` before any node process is
spawned, and the whole run reports failure. -/
theorem c10_exhausted (cfgs : List NodeConfig) (i : Nat) (w : World)
    (h1 : i < cfgs.length) (h2 : (cfgs.get ⟨i, h1⟩).ifaddr.addr = 0)
    (h3 : 65534 ≤ i) :
    normalize_nodes cfgs = Except.error "exhausted available IP adddress range" ∧
    (w.new_bridge_res = none →
      (do_network_switch_main w cfgs).1 =
        Except.error "exhausted available IP adddress range") ∧
    (∀ ev ∈ (do_network_switch_main w cfgs).2, is_spawn_node_ev ev = false) ∧
    ((network_new w).1 = Except.ok () →
      testnet w cfgs = Except.error "some nodes failed") := by
  have hnorm : normalize_nodes cfgs = Except.error "exhausted available IP adddress range" :=
    normalize_from_exhaust cfgs 0 i h1 h2 (by omega)
  refine ⟨hnorm, ?_, ?_, ?_⟩
  · intro hb
    simp [do_network_switch_main, hb, hnorm]
  · rcases hb : w.new_bridge_res with _ | eb <;>
      simp [do_network_switch_main, hb, hnorm, switch_prefix_events, is_spawn_node_ev]
  · intro hok
    rcases hb : w.new_bridge_res with _ | eb <;>
      simp [testnet, network_wait, network_switch_main, do_network_switch_main,
        hok, hb, hnorm]

/-- Witness for C10: 65535 default-configured nodes make the bootstrap fail
with the exhausted-range error and the whole run fail. -/
theorem c10_exhausted_witness :
    normalize_nodes (List.replicate 65535 NodeConfig.default) =
      Except.error "exhausted available IP adddress range" ∧
    (do_network_switch_main world0 (List.replicate 65535 NodeConfig.default)).1 =
      Except.error "exhausted available IP adddress range" ∧
    testnet world0 (List.replicate 65535 NodeConfig.default) =
      Except.error "some nodes failed" := by
  have h1 : 65534 < (List.replicate 65535 NodeConfig.default).length := by
    rw [List.length_replicate]
    omega
  have h2 : (((List.replicate 65535 NodeConfig.default).get ⟨65534, h1⟩)).ifaddr.addr = 0 := by
    rw [List.get_eq_getElem, List.getElem_replicate]
    rfl
  have h := c10_exhausted (List.replicate 65535 NodeConfig.default) 65534 world0 h1 h2
    (by omega)
  exact ⟨h.1, h.2.1 rfl, h.2.2.2 rfl⟩

end Testnet

